import Mathlib

/-!
Verification development for the promptlylearn backend core:
credit metering (`src/utils/credit_helper.py`), the task-status bridge
(`src/routes/tasks.py`), the streaming lesson worker
(`src/tasks/lesson_stream.py`) and the dispatch/stream endpoints
(`src/routes/course.py`, `src/routes/roadmap.py`, `src/main.py`).

Timestamps are modelled as integers (seconds since epoch); `datetime.utcnow()`
becomes an explicit `now : Int` parameter, and `timedelta(days=1)` becomes
`ONE_DAY = 86400`.  A `db.commit()` is modelled by the function returning the
persisted state; a raised exception is an `Except.error` result that carries
the state as already committed before the raise.
-/

namespace PromptlyLearn

/-- `Status` enum from `src/models.py`. -/
inductive Status
  | FAILED
  | GENERATING
  | NOT_GENERATED
  | NOT_STARTED
  | IN_PROGRESS
  | COMPLETED
  deriving DecidableEq, Repr

/-- `MembershipStatus` enum from `src/models.py`. -/
inductive MembershipStatus
  | ACTIVE
  | INACTIVE
  | CANCELED
  deriving DecidableEq, Repr

/-- The fields of the `User` row that the credit helper reads and writes. -/
structure User where
  membership_plan : String
  membership_status : MembershipStatus
  membership_active_until : Option Int
  credits : Int
  credits_reset_at : Option Int
  deriving DecidableEq, Repr

/-- `DAILY_CREDITS = 200` from `src/utils/credit_helper.py`. -/
def DAILY_CREDITS : Int := 200

/-- `timedelta(days=1)` in seconds. -/
def ONE_DAY : Int := 86400

/-- The `membership_plan == "premium" and membership_status == ACTIVE` test
that appears at the top of `ensure_credits_are_valid` and
`consume_credits`. -/
def premiumActive (u : User) : Bool :=
  u.membership_plan == "premium" && u.membership_status == MembershipStatus.ACTIVE

/-- `user.membership_active_until and user.membership_active_until > utcnow()`:
in Python `None` is falsy and a `datetime` is always truthy, so this is
exactly the `Option` match. -/
def activeUntilAfterNow (u : User) (now : Int) : Bool :=
  match u.membership_active_until with
  | some t => decide (now < t)
  | none => false

/-- `user.membership_active_until and user.membership_active_until < utcnow()`. -/
def activeUntilBeforeNow (u : User) (now : Int) : Bool :=
  match u.membership_active_until with
  | some t => decide (t < now)
  | none => false

/-- `ensure_credits_are_valid` from `src/utils/credit_helper.py`.
Premium+ACTIVE users are untouched; a user with no `credits_reset_at` is
initialised to the full allowance with a deadline 24h out; otherwise the
reset fires only when the deadline has passed AND the balance is strictly
below the allowance.  The returned user is the committed state. -/
def ensure_credits_are_valid (user : User) (now : Int) : User :=
  if premiumActive user then
    user
  else
    match user.credits_reset_at with
    | none =>
        { user with credits := DAILY_CREDITS, credits_reset_at := some (now + ONE_DAY) }
    | some resetAt =>
        if resetAt ≤ now ∧ user.credits < DAILY_CREDITS then
          { user with credits := DAILY_CREDITS, credits_reset_at := some (now + ONE_DAY) }
        else
          user

/-- The two messages `consume_credits` can raise `NotEnoughCreditsException`
with: an expired membership grace window, or an insufficient balance. -/
inductive CreditError
  | membershipExpired
  | notEnoughCredits
  deriving DecidableEq, Repr

instance : DecidableEq (Except CreditError Unit) := fun a b =>
  match a, b with
  | Except.ok (), Except.ok () => isTrue rfl
  | Except.error e, Except.error f =>
      if h : e = f then isTrue (by rw [h]) else isFalse (by intro hc; cases hc; exact h rfl)
  | Except.ok (), Except.error _ => isFalse (by intro hc; cases hc)
  | Except.error _, Except.ok () => isFalse (by intro hc; cases hc)

/-- The part of `consume_credits` after the `ensure_credits_are_valid` call,
operating on the user state that call committed: exempt if premium+ACTIVE or
a non-expired grace window; raises if the grace window has expired; raises if
`credits < cost`; otherwise decrements and commits. -/
def consume_credits_post (u : User) (cost : Int) (now : Int) :
    Except CreditError Unit × User :=
  if premiumActive u || activeUntilAfterNow u now then
    (Except.ok (), u)
  else if activeUntilBeforeNow u now then
    (Except.error CreditError.membershipExpired, u)
  else if u.credits < cost then
    (Except.error CreditError.notEnoughCredits, u)
  else
    (Except.ok (), { u with credits := u.credits - cost })

/-- `consume_credits` from `src/utils/credit_helper.py`.  Runs
`ensure_credits_are_valid` first (whose commit survives a later raise), then
the exemption/raise/decrement logic above.  The second component is the user
state as persisted when the call returns or raises. -/
def consume_credits (user : User) (cost : Int) (now : Int) :
    Except CreditError Unit × User :=
  consume_credits_post (ensure_credits_are_valid user now) cost now

/-- Condition under which `ensure_credits_are_valid` mutates the user:
not premium+ACTIVE, and either no reset deadline is set or the deadline has
passed with the balance strictly below the allowance. -/
def resetFires (u : User) (now : Int) : Bool :=
  if premiumActive u then
    false
  else
    match u.credits_reset_at with
    | none => true
    | some resetAt => decide (resetAt ≤ now ∧ u.credits < DAILY_CREDITS)

/-- Run a sequence of consume calls, each given as a `(cost, now)` pair, each
call seeing the state persisted by the previous one. -/
def runConsumes (u : User) : List (Int × Int) → User
  | [] => u
  | c :: cs => runConsumes (consume_credits u c.1 c.2).2 cs

/-- Every call in the sequence has positive cost, hits a non-exempt user, does
not trigger the periodic reset, and individually succeeds. -/
def seqGood (u : User) : List (Int × Int) → Bool
  | [] => true
  | c :: cs =>
      decide (0 < c.1) && !premiumActive u && !activeUntilAfterNow u c.2
        && !resetFires u c.2 && (consume_credits u c.1 c.2).1.isOk
        && seqGood (consume_credits u c.1 c.2).2 cs

def sumCosts : List (Int × Int) → Int
  | [] => 0
  | c :: cs => c.1 + sumCosts cs

/-!
Status bridge, `task_status` in `src/routes/tasks.py`.  The durable branches
(`course_outline`, `roadmap_outline`) look up a row by the job handle and
reconcile its `status` column with the execution substrate's report for the
handle (`AsyncResult.successful()` / `.failed()` / still running).
-/

/-- A durable task row; only the `status` column is read or written by the
status bridge. -/
structure TaskRow where
  status : Status
  deriving DecidableEq, Repr

/-- What `AsyncResult` reports for the job handle: `successful()`, `failed()`,
or neither (still pending/startable). -/
inductive SubstrateReport
  | success
  | failure
  | running
  deriving DecidableEq, Repr

/-- Python semantics of the guard expression `course.status != "FAILED"` in
`task_status`: `course.status` is a `Status` enum member (`enum.Enum`, no
`str` mixin), and an `enum.Enum` member never compares equal to a plain
string, so the `!=` comparison is `True` for every status value, including
`Status.FAILED` itself. -/
def pyStatusNeqStrFAILED (_s : Status) : Bool := true

/-- What the endpoint returns in its `"status"` field. -/
inductive PollResult
  | unknown
  | success
  | failure
  | current (s : Status)
  deriving DecidableEq, Repr

/-- The durable branch of `task_status` (identical for `course_outline` and
`roadmap_outline` up to the returned id field).  Returns the poll result, the
row as persisted afterwards, and whether a `db.commit()` was performed
(i.e. whether the poll mutated the row). -/
def task_status_durable (row : Option TaskRow) (report : SubstrateReport) :
    PollResult × Option TaskRow × Bool :=
  match row with
  | none => (PollResult.unknown, none, false)
  | some r =>
      match report with
      | SubstrateReport.success =>
          (PollResult.success, some { r with status := Status.NOT_STARTED }, true)
      | SubstrateReport.failure =>
          if pyStatusNeqStrFAILED r.status then
            (PollResult.failure, some { r with status := Status.FAILED }, true)
          else
            (PollResult.current r.status, some r, false)
      | SubstrateReport.running =>
          (PollResult.current r.status, some r, false)

/-- Result of the `quiz_generation` branch of `task_status`: the cached
payload, the cached error detail, or the substrate's own (lower-cased)
status string. -/
inductive QuizPoll
  | done (payload : String)
  | error (detail : String)
  | substrate (st : String)
  deriving DecidableEq, Repr

/-- The `quiz_generation` branch of `task_status`: read the result key
`quiz:<task_id>`; if absent read the error key `quiz_error:<task_id>`; if
neither exists return `AsyncResult(task_id).status.lower()`. -/
def task_status_quiz (result err : Option String) (substrateStatus : String) : QuizPoll :=
  match result with
  | some d => QuizPoll.done d
  | none =>
      match err with
      | some e => QuizPoll.error e
      | none => QuizPoll.substrate substrateStatus.toLower

/-- The `chat_stream` branch of `task_status`: read the result key
`chat_result:<task_id>`; if absent return `{"status": "pending"}` (the
substrate's report, available in scope, is never consulted and no error key
exists for chat); if present delete the key and return the reply.  Returns
the status string, the relayed reply, and the key's value after the poll. -/
def task_status_chat (reply : Option String) (_substrateStatus : String) :
    String × Option String × Option String :=
  match reply with
  | none => ("pending", none, none)
  | some r => ("ready", some r, none)

/-!
Streaming lesson worker (`src/tasks/lesson_stream.py`) and the relay
generator `event_stream` (`src/routes/course.py` and, identically,
`src/main.py`).
-/

/-- The durable Lesson/Module/Course state touched by the streaming worker. -/
structure LMC where
  lessonContent : Option String
  lessonStatus : Status
  moduleStatus : Status
  courseStatus : Status
  deriving DecidableEq, Repr

/-- The token-streaming call as the worker observes it: either the full token
sequence followed by normal termination, or some tokens followed by an
exception carrying a message (any exception raised inside the `try` block
before the final commit: the queries, the streaming call, a token read, or
the commit itself — in all of those the session holds no committed write). -/
inductive StreamOutcome
  | ok (tokens : List String)
  | exn (tokens : List String) (msg : String)
  deriving DecidableEq, Repr

def streamTokens : StreamOutcome → List String
  | StreamOutcome.ok ts => ts
  | StreamOutcome.exn ts _ => ts

def STREAM_END : String := "[[STREAM_END]]"

/-- `f"[[ERROR]] \x7be\x7d"` published by the worker's `except` handler. -/
def errorSentinel (msg : String) : String := "[[ERROR]] " ++ msg

/-- `generate_lesson_markdown_stream_task` from `src/tasks/lesson_stream.py`.
`found` is `lesson and course` being present; `modulePresent` is `module`
being present.  Only truthy (non-empty) tokens are published and buffered
(`if token:`).  On normal termination the buffer is committed to the lesson,
the lesson status is set to `IN_PROGRESS` unconditionally, the module and
course statuses only if currently `NOT_GENERATED`, and the `STREAM_END`
sentinel is published; on an exception the error sentinel is published and
the session is rolled back, leaving the durable state untouched.  Returns
the list of messages published on the stream channel and the durable state
afterwards. -/
def generate_lesson_markdown_stream_task
    (found : Bool) (modulePresent : Bool) (st : LMC) (outcome : StreamOutcome) :
    List String × LMC :=
  if !found then
    (["[[ERROR]] Lesson or Course not found"], st)
  else
    match outcome with
    | StreamOutcome.exn tokens msg =>
        ((tokens.filter (fun t => t ≠ "")) ++ [errorSentinel msg], st)
    | StreamOutcome.ok tokens =>
        let published := tokens.filter (fun t => t ≠ "")
        (published ++ [STREAM_END],
         { lessonContent := some (String.join published),
           lessonStatus := Status.IN_PROGRESS,
           moduleStatus :=
             if modulePresent && (st.moduleStatus == Status.NOT_GENERATED)
             then Status.IN_PROGRESS else st.moduleStatus,
           courseStatus :=
             if st.courseStatus == Status.NOT_GENERATED
             then Status.IN_PROGRESS else st.courseStatus })

/-- Boolean test that the first character list leads the second, i.e. the
second begins with the first; `pyStartswith s pre` below is Python's
`s.startswith(pre)`. -/
def leadsWith : List Char → List Char → Bool
  | [], _ => true
  | _ :: _, [] => false
  | a :: as, b :: bs => a == b && leadsWith as bs

def pyStartswith (s pre : String) : Bool := leadsWith pre.data s.data

/-- A channel message that terminates the relay: the `STREAM_END` sentinel or
an `[[ERROR]]`-prefixed message. -/
def isSentinel (d : String) : Bool := d == STREAM_END || pyStartswith d "[[ERROR]]"

/-- The error event the relay emits to the client,
`f"event: error\n\x7bjson.dumps(\x7b'error': data\x7d)\x7d\n\n"` (JSON escaping of the
message text is not modelled). -/
def errorEvent (d : String) : String :=
  "event: error\n\x7b\"error\": \"" ++ d ++ "\"\x7d\n\n"

/-- The relay generator `event_stream`: for each pubsub payload (messages of
type other than "message" are skipped and not modelled), stop with a blank
terminator on `STREAM_END`, stop with a client-visible error event on an
`[[ERROR]]`-prefixed message, otherwise relay the data verbatim and
continue. -/
def event_stream : List String → List String
  | [] => []
  | d :: rest =>
      if d == STREAM_END then ["\n\n"]
      else if pyStartswith d "[[ERROR]]" then [errorEvent d]
      else d :: event_stream rest

/-!
Enqueueing of the streaming worker.  Both call sites
(`src/routes/course.py` line 341 and `src/main.py` line 585) invoke
`generate_lesson_markdown_stream_task.delay(lesson_id, module_id, course_id,
stream_id)` with four positional arguments, while the task function (after
the bound `self`) declares five defaultless parameters plus one defaulted
parameter.
-/

/-- Positional parameters of `generate_lesson_markdown_stream_task` after the
bound `self`, in declaration order; the first five have no default,
`custom_prompt` defaults to `None`. -/
def lessonTaskParams : List String :=
  ["model", "lesson_id", "module_id", "course_id", "stream_id", "custom_prompt"]

/-- Number of defaultless parameters of the task (after `self`). -/
def lessonTaskRequiredCount : Nat := 5

/-- The positional argument expressions passed by `.delay(...)` at both call
sites, in order. -/
def delayCallArgs : List String := ["lesson_id", "module_id", "course_id", "stream_id"]

/-- Python positional call binding: arguments are bound to parameters in
declaration order; the call is valid only when every defaultless parameter
receives a value and no positional argument is left over — otherwise a
`TypeError` is raised before the function body runs. -/
def bindCall (params : List String) (required : Nat) (args : List String) :
    Option (List (String × String)) :=
  if required ≤ args.length ∧ args.length ≤ params.length then
    some (params.zip args)
  else
    none

/-- Execution of the enqueued task by the worker: if positional binding
fails, the `TypeError` is raised before the task body runs, so nothing is
published on the stream channel and the durable state is untouched;
otherwise the task body runs. -/
def runDelayedLessonStreamTask (args : List String)
    (found modPresent : Bool) (st : LMC) (outcome : StreamOutcome) :
    List String × LMC :=
  match bindCall lessonTaskParams lessonTaskRequiredCount args with
  | none => ([], st)
  | some _ => generate_lesson_markdown_stream_task found modPresent st outcome

/-!
Dispatch endpoints `generate_course_outline` (`src/routes/course.py`) and
`generate_roadmap` (`src/routes/roadmap.py`).  Both call
`consume_credits(user, db, 10)` strictly before creating their
Course/Roadmap row and enqueueing the background job; the roadmap route
wraps the call in `try/except` that re-raises unchanged.
-/

/-- `generate_course_outline`: the propagated credit result, the persisted
user, whether a Course row was created, and whether a job was enqueued. -/
def generate_course_outline (u : User) (now : Int) :
    Except CreditError Unit × User × Bool × Bool :=
  match consume_credits u 10 now with
  | (Except.error e, u1) => (Except.error e, u1, false, false)
  | (Except.ok _, u1) => (Except.ok (), u1, true, true)

/-- `generate_roadmap`: same shape; the `except` clause only logs and
re-raises, so a credit failure propagates before the Roadmap row exists. -/
def generate_roadmap (u : User) (now : Int) :
    Except CreditError Unit × User × Bool × Bool :=
  match consume_credits u 10 now with
  | (Except.error e, u1) => (Except.error e, u1, false, false)
  | (Except.ok _, u1) => (Except.ok (), u1, true, true)

/-!
Theorems.  Helper lemmas first, then one theorem (plus counterexample and
witness where applicable) per claim.
-/

theorem ensure_eq_of_not_resetFires (u : User) (now : Int)
    (h : resetFires u now = false) : ensure_credits_are_valid u now = u := by
  unfold resetFires at h
  unfold ensure_credits_are_valid
  by_cases hp : premiumActive u
  · simp [hp]
  · simp [hp] at h ⊢
    cases hr : u.credits_reset_at with
    | none => simp [hr] at h
    | some t => simp [hr] at h ⊢; omega

theorem ensure_credits_cases (u : User) (now : Int) :
    (ensure_credits_are_valid u now).credits = u.credits
      ∨ (ensure_credits_are_valid u now).credits = DAILY_CREDITS := by
  unfold ensure_credits_are_valid
  by_cases hp : premiumActive u
  · simp [hp]
  · simp [hp]
    cases hr : u.credits_reset_at with
    | none => simp
    | some t =>
        by_cases hc : t ≤ now ∧ u.credits < DAILY_CREDITS
        · simp [hc]
        · simp [hc]

theorem ensure_membership_fields (u : User) (now : Int) :
    (ensure_credits_are_valid u now).membership_plan = u.membership_plan
      ∧ (ensure_credits_are_valid u now).membership_status = u.membership_status
      ∧ (ensure_credits_are_valid u now).membership_active_until
          = u.membership_active_until := by
  unfold ensure_credits_are_valid
  by_cases hp : premiumActive u
  · simp [hp]
  · simp [hp]
    cases hr : u.credits_reset_at with
    | none => simp
    | some t =>
        by_cases hc : t ≤ now ∧ u.credits < DAILY_CREDITS
        · simp [hc]
        · simp [hc]

theorem premiumActive_ensure (u : User) (now : Int) :
    premiumActive (ensure_credits_are_valid u now) = premiumActive u := by
  unfold premiumActive
  rw [(ensure_membership_fields u now).1, (ensure_membership_fields u now).2.1]

theorem activeUntilAfterNow_ensure (u : User) (now : Int) :
    activeUntilAfterNow (ensure_credits_are_valid u now) now = activeUntilAfterNow u now := by
  unfold activeUntilAfterNow
  rw [(ensure_membership_fields u now).2.2]

theorem activeUntilBeforeNow_ensure (u : User) (now : Int) :
    activeUntilBeforeNow (ensure_credits_are_valid u now) now = activeUntilBeforeNow u now := by
  unfold activeUntilBeforeNow
  rw [(ensure_membership_fields u now).2.2]

/-- A single successful non-exempt consume with the periodic reset not firing
is exactly a decrement by `cost`, and requires `cost ≤ credits`. -/
theorem consume_step (u : User) (cost now : Int)
    (hre : resetFires u now = false)
    (hp : premiumActive u = false)
    (hg : activeUntilAfterNow u now = false)
    (hok : (consume_credits u cost now).1.isOk = true) :
    (consume_credits u cost now).2 = { u with credits := u.credits - cost }
      ∧ cost ≤ u.credits := by
  unfold consume_credits at hok ⊢
  rw [ensure_eq_of_not_resetFires u now hre] at hok ⊢
  have hb : activeUntilBeforeNow u now = false := by
    by_contra hb
    simp at hb
    unfold consume_credits_post at hok
    simp [hp, hg, hb, Except.isOk, Except.toBool] at hok
  have hc : ¬ u.credits < cost := by
    intro hc
    unfold consume_credits_post at hok
    simp [hp, hg, hb, hc, Except.isOk, Except.toBool] at hok
  refine ⟨?_, by omega⟩
  unfold consume_credits_post
  simp [hp, hg, hb, hc]

/-- C1 counterexample: a `consume_credits` call that raises
`InsufficientCredits` (here through the expired-membership branch of
`NotEnoughCreditsException`) can nevertheless change `credits`, because
`ensure_credits_are_valid` runs — and commits its reset — before the raise.
User: free plan, grace window expired at time 3, credits 5, reset deadline
already passed; a cost-10 consume at time 10 raises after resetting the
balance from 5 to 200. -/
theorem c1_counterexample :
    0 < (10 : Int)
      ∧ (consume_credits ⟨"free", MembershipStatus.INACTIVE, some 3, 5, some 0⟩ 10 10).1
          = Except.error CreditError.membershipExpired
      ∧ (consume_credits ⟨"free", MembershipStatus.INACTIVE, some 3, 5, some 0⟩ 10 10).2.credits
          ≠ 5 := by
  decide

/-- On every raising branch of the post-`ensure` logic the persisted state is
exactly the state the `ensure_credits_are_valid` call committed: a raise
performs no deduction. -/
theorem consume_credits_post_error (e : User) (cost now : Int)
    (h : (consume_credits_post e cost now).1.isOk = false) :
    (consume_credits_post e cost now).2 = e := by
  unfold consume_credits_post at h ⊢
  by_cases h1 : premiumActive e || activeUntilAfterNow e now
  · simp [h1, Except.isOk, Except.toBool] at h
  · simp only [Bool.not_eq_true] at h1
    by_cases h2 : activeUntilBeforeNow e now
    · simp [h1, h2]
    · simp only [Bool.not_eq_true] at h2
      by_cases h3 : e.credits < cost
      · simp [h1, h2, h3]
      · simp [h1, h2, h3, Except.isOk, Except.toBool] at h

/-- C1 (amended): a failing consume performs no deduction — the state it
persists is exactly the one `ensure_credits_are_valid` committed, so on a
raising call `credits` are either unchanged or equal to the full daily
allowance (the documented reset), never decremented; and for any sequence of
individually successful consume calls with positive costs on a non-exempt
user during which the periodic reset never fires, the final balance equals
the initial balance minus the sum of the costs, and (when at least one call
was made) is never below zero. -/
theorem c1_amended (u : User) (cost now : Int) (calls : List (Int × Int)) :
    ((consume_credits u cost now).1.isOk = false →
        (consume_credits u cost now).2 = ensure_credits_are_valid u now
          ∧ ((consume_credits u cost now).2.credits = u.credits
              ∨ (consume_credits u cost now).2.credits = DAILY_CREDITS))
      ∧ (seqGood u calls = true →
          (runConsumes u calls).credits = u.credits - sumCosts calls
            ∧ (calls ≠ [] → 0 ≤ (runConsumes u calls).credits)) := by
  constructor
  · intro hfail
    unfold consume_credits at hfail ⊢
    refine ⟨consume_credits_post_error _ cost now hfail, ?_⟩
    rw [consume_credits_post_error _ cost now hfail]
    exact ensure_credits_cases u now
  · intro h
    induction calls generalizing u with
    | nil => simp [runConsumes, sumCosts]
    | cons c cs ih =>
        unfold seqGood at h
        simp only [Bool.and_eq_true, decide_eq_true_eq, Bool.not_eq_true'] at h
        obtain ⟨⟨⟨⟨⟨hpos, hp⟩, hg⟩, hre⟩, hok⟩, hrest⟩ := h
        obtain ⟨hstep, hle⟩ := consume_step u c.1 c.2 hre hp hg hok
        unfold runConsumes sumCosts
        rw [hstep] at hrest ⊢
        obtain ⟨ih1, ih2⟩ := ih _ hrest
        refine ⟨?_, ?_⟩
        · rw [ih1]; simp; omega
        · intro _
          cases cs with
          | nil =>
              unfold runConsumes
              simp
              omega
          | cons d ds => exact ih2 (by simp)

/-- Closed witness for the amended C1, exercising both clauses: the failing
call of the counterexample user (free plan, expired grace window, credits 5,
past reset deadline) persists exactly the ensured state, with credits equal
to the original 5 or to the full allowance; and a free user with 15 credits
and a reset deadline in the future makes two successful calls of costs 10
and 5, ending at exactly 0 credits. -/
theorem c1_amended_witness :
    ((consume_credits ⟨"free", MembershipStatus.INACTIVE, some 3, 5, some 0⟩ 10 10).2
          = ensure_credits_are_valid ⟨"free", MembershipStatus.INACTIVE, some 3, 5, some 0⟩ 10
        ∧ ((consume_credits ⟨"free", MembershipStatus.INACTIVE, some 3, 5, some 0⟩ 10 10).2.credits
              = 5
            ∨ (consume_credits ⟨"free", MembershipStatus.INACTIVE, some 3, 5, some 0⟩ 10 10).2.credits
              = DAILY_CREDITS))
      ∧ ((runConsumes ⟨"free", MembershipStatus.INACTIVE, none, 15, some 1000⟩
            [(10, 5), (5, 6)]).credits = 15 - sumCosts [(10, 5), (5, 6)]
          ∧ ([((10 : Int), (5 : Int)), (5, 6)] ≠ []
              → 0 ≤ (runConsumes ⟨"free", MembershipStatus.INACTIVE, none, 15, some 1000⟩
                      [(10, 5), (5, 6)]).credits)) :=
  ⟨(c1_amended ⟨"free", MembershipStatus.INACTIVE, some 3, 5, some 0⟩ 10 10 []).1
      (by decide),
   (c1_amended ⟨"free", MembershipStatus.INACTIVE, none, 15, some 1000⟩ 0 0
      [(10, 5), (5, 6)]).2 (by decide)⟩

/-- C5: for a non-premium-ACTIVE user holding the full daily allowance whose
reset deadline has passed, `ensure_credits_are_valid` changes nothing: the
reset fires only strictly below the allowance, so the deadline is not pushed
forward for a user who has spent nothing. -/
theorem c5_reset_only_below_allowance (u : User) (now t : Int)
    (hp : premiumActive u = false)
    (hc : u.credits = DAILY_CREDITS)
    (hr : u.credits_reset_at = some t)
    (_hnow : t ≤ now) :
    ensure_credits_are_valid u now = u := by
  unfold ensure_credits_are_valid
  simp [hp, hr]
  intro _
  omega

/-- Closed witness for C5: free user with 200 credits and a reset deadline at
time 50, polled at time 100, is left untouched. -/
theorem c5_witness :
    ensure_credits_are_valid ⟨"free", MembershipStatus.INACTIVE, none, 200, some 50⟩ 100
      = ⟨"free", MembershipStatus.INACTIVE, none, 200, some 50⟩ :=
  c5_reset_only_below_allowance _ 100 50 (by decide) (by decide) (by decide) (by decide)

/-- C6 counterexample: for a user exempt through a non-expired grace window,
a successful consume does not leave `credits` unchanged — the reset inside
`ensure_credits_are_valid` can raise them to the full allowance first.
User: free plan, grace window until 100, credits 0, reset deadline passed;
consume at time 10 succeeds with credits 200, not 0. -/
theorem c6_counterexample :
    (consume_credits ⟨"free", MembershipStatus.INACTIVE, some 100, 0, some 0⟩ 10 10).1
        = Except.ok ()
      ∧ (consume_credits ⟨"free", MembershipStatus.INACTIVE, some 100, 0, some 0⟩ 10 10).2.credits
          ≠ 0 := by
  decide

/-- C6 (amended): `consume_credits` deducts nothing and succeeds for a
premium+ACTIVE user (state fully unchanged) and for a user with a non-expired
grace window (credits either unchanged or raised to the full allowance by the
reset — never decremented), even when `credits < cost`; and for a
non-premium-ACTIVE user whose grace window has expired it raises the
membership-expired `InsufficientCredits` regardless of the balance. -/
theorem c6_amended (u : User) (cost now : Int) :
    (premiumActive u = true → consume_credits u cost now = (Except.ok (), u))
      ∧ (activeUntilAfterNow u now = true →
          (consume_credits u cost now).1 = Except.ok ()
            ∧ ((consume_credits u cost now).2.credits = u.credits
                ∨ (consume_credits u cost now).2.credits = DAILY_CREDITS))
      ∧ (premiumActive u = false → activeUntilBeforeNow u now = true →
          (consume_credits u cost now).1 = Except.error CreditError.membershipExpired) := by
  refine ⟨?_, ?_, ?_⟩
  · intro hp
    unfold consume_credits
    have he : ensure_credits_are_valid u now = u := by
      unfold ensure_credits_are_valid; simp [hp]
    rw [he]
    unfold consume_credits_post
    simp [hp]
  · intro hg
    unfold consume_credits consume_credits_post
    rw [show activeUntilAfterNow (ensure_credits_are_valid u now) now = true from
        (activeUntilAfterNow_ensure u now).trans hg]
    simp
    exact ensure_credits_cases u now
  · intro hp hb
    have hg : activeUntilAfterNow u now = false := by
      unfold activeUntilAfterNow
      unfold activeUntilBeforeNow at hb
      cases hu : u.membership_active_until with
      | none => simp [hu] at hb
      | some t => simp [hu] at hb ⊢; omega
    unfold consume_credits consume_credits_post
    rw [show premiumActive (ensure_credits_are_valid u now) = false from
        (premiumActive_ensure u now).trans hp,
      show activeUntilAfterNow (ensure_credits_are_valid u now) now = false from
        (activeUntilAfterNow_ensure u now).trans hg,
      show activeUntilBeforeNow (ensure_credits_are_valid u now) now = true from
        (activeUntilBeforeNow_ensure u now).trans hb]
    simp

/-- Closed witness for the amended C6, instantiating all three cases:
a premium+ACTIVE user with 0 credits, a grace-window user with 0 credits,
and an expired-grace user with a large balance. -/
theorem c6_amended_witness :
    consume_credits ⟨"premium", MembershipStatus.ACTIVE, none, 0, none⟩ 10 5
        = (Except.ok (), ⟨"premium", MembershipStatus.ACTIVE, none, 0, none⟩)
      ∧ (consume_credits ⟨"free", MembershipStatus.CANCELED, some 100, 0, some 1000⟩ 7 5).1
          = Except.ok ()
      ∧ (consume_credits ⟨"free", MembershipStatus.INACTIVE, some 3, 500, none⟩ 10 10).1
          = Except.error CreditError.membershipExpired :=
  ⟨(c6_amended ⟨"premium", MembershipStatus.ACTIVE, none, 0, none⟩ 10 5).1 (by decide),
   ((c6_amended ⟨"free", MembershipStatus.CANCELED, some 100, 0, some 1000⟩ 7 5).2.1
      (by decide)).1,
   (c6_amended ⟨"free", MembershipStatus.INACTIVE, some 3, 500, none⟩ 10 10).2.2
      (by decide) (by decide)⟩

/-- C2: polling an already-`FAILED` row while the substrate reports failure is
NOT idempotent — because `course.status != "FAILED"` compares an enum member
against a string and is therefore always true, the bridge re-runs the FAILED
transition (assigns and commits again) and returns `FAILURE` instead of the
row's current status.  This theorem evaluates the code at that failing input. -/
theorem c2_failed_row_repolled :
    task_status_durable (some ⟨Status.FAILED⟩) SubstrateReport.failure
        = (PollResult.failure, some ⟨Status.FAILED⟩, true)
      ∧ task_status_durable (some ⟨Status.FAILED⟩) SubstrateReport.failure
          ≠ (PollResult.current Status.FAILED, some ⟨Status.FAILED⟩, false) := by
  decide

/-- C7 counterexample: a chat poll with no cached result does not fall back to
the substrate's status report — it returns the synthetic `"pending"` even when
the substrate reports `"failure"` for the job handle. -/
theorem c7_counterexample :
    (task_status_chat none "FAILURE").1 = "pending"
      ∧ (task_status_chat none "FAILURE").1 ≠ "failure" := by
  constructor
  · rfl
  · decide

/-- C7 (amended): the quiz branch behaves as claimed — the error key is
checked only when the result key is absent, and when neither exists the
returned status is the substrate's own report (lower-cased); the chat branch,
however, returns the synthetic `"pending"` when its result key is absent,
consulting no error key and not the substrate. -/
theorem c7_amended (err : Option String) (d e substrateStatus : String) :
    task_status_quiz (some d) err substrateStatus = QuizPoll.done d
      ∧ task_status_quiz none (some e) substrateStatus = QuizPoll.error e
      ∧ task_status_quiz none none substrateStatus
          = QuizPoll.substrate substrateStatus.toLower
      ∧ task_status_chat none substrateStatus = ("pending", none, none) := by
  refine ⟨rfl, rfl, rfl, rfl⟩

theorem leadsWith_append (p l rest : List Char) (h : leadsWith p l = true) :
    leadsWith p (l ++ rest) = true := by
  induction p generalizing l with
  | nil => rfl
  | cons a as ih =>
      cases l with
      | nil => simp [leadsWith] at h
      | cons b bs =>
          simp only [List.cons_append]
          unfold leadsWith at h ⊢
          simp only [Bool.and_eq_true] at h ⊢
          exact ⟨h.1, ih bs h.2⟩

theorem errorSentinel_isSentinel (msg : String) :
    isSentinel (errorSentinel msg) = true := by
  unfold isSentinel errorSentinel pyStartswith
  rw [String.data_append]
  rw [leadsWith_append _ _ _ (by decide)]
  simp

theorem event_stream_sentinel (s : String) (post : List String)
    (hs : isSentinel s = true) :
    event_stream (s :: post) = [if s == STREAM_END then "\n\n" else errorEvent s] := by
  unfold event_stream
  unfold isSentinel at hs
  by_cases he : s == STREAM_END
  · simp [he]
  · simp only [he, Bool.false_or] at hs
    simp [he, hs]

theorem event_stream_append_of_no_sentinel (pre rest : List String)
    (hpre : ∀ m ∈ pre, isSentinel m = false) :
    event_stream (pre ++ rest) = pre ++ event_stream rest := by
  induction pre with
  | nil => rfl
  | cons m ms ih =>
      have hm : isSentinel m = false := hpre m (by simp)
      unfold isSentinel at hm
      rw [Bool.or_eq_false_iff] at hm
      simp only [List.cons_append]
      conv_lhs => unfold event_stream
      simp only [hm.1, hm.2, Bool.false_eq_true, if_false, List.cons.injEq, true_and]
      exact ih (fun x hx => hpre x (by simp [hx]))

theorem worker_publishes_one_sentinel (found modPresent : Bool) (st : LMC)
    (outcome : StreamOutcome)
    (htok : ∀ t ∈ streamTokens outcome, isSentinel t = false) :
    ∃ ts sent,
      (generate_lesson_markdown_stream_task found modPresent st outcome).1
          = ts ++ [sent]
        ∧ (∀ m ∈ ts, isSentinel m = false)
        ∧ isSentinel sent = true := by
  unfold generate_lesson_markdown_stream_task
  cases found with
  | false =>
      exact ⟨[], "[[ERROR]] Lesson or Course not found", by simp, by simp, by decide⟩
  | true =>
      simp only [Bool.not_true, Bool.false_eq_true, if_false]
      cases outcome with
      | exn tokens msg =>
          refine ⟨tokens.filter (fun t => t ≠ ""), errorSentinel msg, rfl, ?_,
            errorSentinel_isSentinel msg⟩
          intro m hm
          exact htok m (List.mem_of_mem_filter hm)
      | ok tokens =>
          refine ⟨tokens.filter (fun t => t ≠ ""), STREAM_END, rfl, ?_, by decide⟩
          intro m hm
          exact htok m (List.mem_of_mem_filter hm)

/-- C8: (relay) the relay emits the sentinel-free prefix it received followed
by exactly one terminator — a blank line for `STREAM_END`, a client-visible
error event for an `[[ERROR]]`-prefixed message, whichever sentinel arrives
first — and relays nothing that arrives after it; (worker) any run of the
worker whose stream tokens are not themselves sentinel-shaped publishes a
sentinel-free prefix followed by exactly one sentinel, never both. -/
theorem c8_stream_termination_exclusivity
    (pre post : List String) (s : String)
    (hpre : ∀ m ∈ pre, isSentinel m = false)
    (hs : isSentinel s = true)
    (found modPresent : Bool) (st : LMC) (outcome : StreamOutcome)
    (htok : ∀ t ∈ streamTokens outcome, isSentinel t = false) :
    event_stream (pre ++ s :: post)
        = pre ++ [if s == STREAM_END then "\n\n" else errorEvent s]
      ∧ ∃ ts sent,
          (generate_lesson_markdown_stream_task found modPresent st outcome).1
              = ts ++ [sent]
            ∧ (∀ m ∈ ts, isSentinel m = false)
            ∧ isSentinel sent = true := by
  constructor
  · rw [event_stream_append_of_no_sentinel pre (s :: post) hpre,
      event_stream_sentinel s post hs]
  · exact worker_publishes_one_sentinel found modPresent st outcome htok

/-- Closed witness for C8: two plain tokens, then the `STREAM_END` sentinel,
then a message that must not be relayed; and a successful worker run on one
token. -/
theorem c8_witness :
    event_stream (["# Intro", " text"] ++ "[[STREAM_END]]" :: ["late"])
        = ["# Intro", " text"]
          ++ [if "[[STREAM_END]]" == STREAM_END then "\n\n"
              else errorEvent "[[STREAM_END]]"]
      ∧ ∃ ts sent,
          (generate_lesson_markdown_stream_task true true
              ⟨none, Status.NOT_GENERATED, Status.NOT_GENERATED, Status.NOT_GENERATED⟩
              (StreamOutcome.ok ["tok"])).1
              = ts ++ [sent]
            ∧ (∀ m ∈ ts, isSentinel m = false)
            ∧ isSentinel sent = true :=
  c8_stream_termination_exclusivity ["# Intro", " text"] ["late"] "[[STREAM_END]]"
    (by decide) (by decide) true true
    ⟨none, Status.NOT_GENERATED, Status.NOT_GENERATED, Status.NOT_GENERATED⟩
    (StreamOutcome.ok ["tok"]) (by decide)

/-- C9: an exception raised inside the worker's try block before the commit
makes the worker publish the already-streamed tokens followed by the
`[[ERROR]]` sentinel and roll the session back: the durable Lesson content
and the Lesson/Module/Course statuses are exactly what they were before the
task ran — no partial markdown is ever committed. -/
theorem c9_failure_rolls_back (modPresent : Bool) (st : LMC)
    (tokens : List String) (msg : String) :
    (generate_lesson_markdown_stream_task true modPresent st
        (StreamOutcome.exn tokens msg)).2 = st
      ∧ (generate_lesson_markdown_stream_task true modPresent st
          (StreamOutcome.exn tokens msg)).1
        = tokens.filter (fun t => t ≠ "") ++ [errorSentinel msg] :=
  ⟨rfl, rfl⟩

/-- C3 counterexample: the worker sets the Lesson status to `IN_PROGRESS`
unconditionally — a lesson already `COMPLETED` is downgraded on the success
path, contradicting the claim that all three statuses are updated only when
currently `NOT_GENERATED`. -/
theorem c3_counterexample :
    ((generate_lesson_markdown_stream_task true true
        ⟨some "old", Status.COMPLETED, Status.COMPLETED, Status.COMPLETED⟩
        (StreamOutcome.ok ["a"])).2).lessonStatus = Status.IN_PROGRESS
      ∧ Status.IN_PROGRESS ≠ Status.COMPLETED := by
  decide

/-- C3 (amended): on successful completion the Lesson status is set to
`IN_PROGRESS` unconditionally, while the Module and Course statuses are
updated to `IN_PROGRESS` only when currently `NOT_GENERATED` and are never
downgraded from a further-advanced state. -/
theorem c3_amended (modPresent : Bool) (st : LMC) (tokens : List String) :
    ((generate_lesson_markdown_stream_task true modPresent st
        (StreamOutcome.ok tokens)).2).lessonStatus = Status.IN_PROGRESS
      ∧ (modPresent = true → st.moduleStatus = Status.NOT_GENERATED →
          ((generate_lesson_markdown_stream_task true modPresent st
              (StreamOutcome.ok tokens)).2).moduleStatus = Status.IN_PROGRESS)
      ∧ (st.moduleStatus ≠ Status.NOT_GENERATED →
          ((generate_lesson_markdown_stream_task true modPresent st
              (StreamOutcome.ok tokens)).2).moduleStatus = st.moduleStatus)
      ∧ (st.courseStatus = Status.NOT_GENERATED →
          ((generate_lesson_markdown_stream_task true modPresent st
              (StreamOutcome.ok tokens)).2).courseStatus = Status.IN_PROGRESS)
      ∧ (st.courseStatus ≠ Status.NOT_GENERATED →
          ((generate_lesson_markdown_stream_task true modPresent st
              (StreamOutcome.ok tokens)).2).courseStatus = st.courseStatus) := by
  unfold generate_lesson_markdown_stream_task
  refine ⟨by simp, ?_, ?_, ?_, ?_⟩
  · intro hmp hmod; simp [hmp, hmod]
  · intro hmod; simp [hmod]
  · intro hcrs; simp [hcrs]
  · intro hcrs; simp [hcrs]

/-- Closed witness for the amended C3: module starts `NOT_GENERATED` (and is
advanced), course starts `COMPLETED` (and is preserved). -/
theorem c3_amended_witness :
    ((generate_lesson_markdown_stream_task true true
        ⟨none, Status.NOT_GENERATED, Status.NOT_GENERATED, Status.COMPLETED⟩
        (StreamOutcome.ok ["x"])).2).lessonStatus = Status.IN_PROGRESS
      ∧ ((generate_lesson_markdown_stream_task true true
          ⟨none, Status.NOT_GENERATED, Status.NOT_GENERATED, Status.COMPLETED⟩
          (StreamOutcome.ok ["x"])).2).moduleStatus = Status.IN_PROGRESS
      ∧ ((generate_lesson_markdown_stream_task true true
          ⟨none, Status.NOT_GENERATED, Status.NOT_GENERATED, Status.COMPLETED⟩
          (StreamOutcome.ok ["x"])).2).courseStatus = Status.COMPLETED :=
  ⟨(c3_amended true ⟨none, Status.NOT_GENERATED, Status.NOT_GENERATED, Status.COMPLETED⟩
      ["x"]).1,
   (c3_amended true ⟨none, Status.NOT_GENERATED, Status.NOT_GENERATED, Status.COMPLETED⟩
      ["x"]).2.1 rfl rfl,
   (c3_amended true ⟨none, Status.NOT_GENERATED, Status.NOT_GENERATED, Status.COMPLETED⟩
      ["x"]).2.2.2.2 (by decide)⟩

/-- C10: the endpoints enqueue the streaming task with four positional
arguments while the task declares five required parameters; binding fails
(one required argument missing), each supplied value lines up with the wrong
parameter slot, and consequently the worker body never runs: no token or
sentinel is published on the channel the endpoint subscribed to, whatever
the database contents or the generator stream would have been. -/
theorem c10_delay_arity_mismatch (found modPresent : Bool) (st : LMC)
    (outcome : StreamOutcome) :
    delayCallArgs.length = 4
      ∧ lessonTaskRequiredCount = 5
      ∧ bindCall lessonTaskParams lessonTaskRequiredCount delayCallArgs = none
      ∧ lessonTaskParams.zip delayCallArgs
          = [("model", "lesson_id"), ("lesson_id", "module_id"),
             ("module_id", "course_id"), ("course_id", "stream_id")]
      ∧ runDelayedLessonStreamTask delayCallArgs found modPresent st outcome
          = ([], st) := by
  refine ⟨rfl, rfl, by decide, by decide, ?_⟩
  unfold runDelayedLessonStreamTask
  rw [show bindCall lessonTaskParams lessonTaskRequiredCount delayCallArgs = none from
    by decide]

/-- C4: when `consume_credits` raises `InsufficientCredits`, neither dispatch
endpoint creates its row or enqueues a job — the error propagates with no
side effects beyond the state `consume_credits` itself persisted. -/
theorem c4_dispatch_atomic_under_credit_failure (u : User) (now : Int)
    (e : CreditError) (h : (consume_credits u 10 now).1 = Except.error e) :
    (generate_course_outline u now).2.2 = (false, false)
      ∧ (generate_roadmap u now).2.2 = (false, false) := by
  have h2 : consume_credits u 10 now
      = (Except.error e, (consume_credits u 10 now).2) := by
    rw [← h]
  constructor
  · unfold generate_course_outline
    rw [h2]
  · unfold generate_roadmap
    rw [h2]

/-- Closed witness for C4: a free user with 0 credits and a reset deadline in
the future fails the 10-credit charge, and neither endpoint creates a row or
enqueues a job. -/
theorem c4_witness :
    (generate_course_outline ⟨"free", MembershipStatus.INACTIVE, none, 0, some 1000⟩ 5).2.2
        = (false, false)
      ∧ (generate_roadmap ⟨"free", MembershipStatus.INACTIVE, none, 0, some 1000⟩ 5).2.2
          = (false, false) :=
  c4_dispatch_atomic_under_credit_failure
    ⟨"free", MembershipStatus.INACTIVE, none, 0, some 1000⟩ 5
    CreditError.notEnoughCredits (by decide)

end PromptlyLearn
